import Mathlib

/-!
# Verification of the supabase-mcp HTTP gateway

Shallow embedding of the JSON-RPC / REST request handlers of the
`Lovable-LDCS/supabase-mcp` repository (the `handleJsonRpc` fallback dispatcher
of the v6.8.1 / v6.8.2 / v6.9.4 server variants, the REST `/actions/*` shim of
v6.9.4, the `POST /messages` transport proxy of the `McpServer` variants, the
`db.rows` tool handler, and the `sseTransports` session map), together with
theorems about the behaviour of those handlers.

JavaScript values reaching the handlers are modelled by `JSValue`.  Numbers are
modelled as integers: every numeric literal and every number the handlers
inspect (`id`, `topK`, ...) is integer-valued in the code under study, and
`parseInt` only ever produces integers.
-/

set_option linter.unusedVariables false
set_option linter.unnecessarySimpa false

namespace SupabaseMcp

mutual

/-- Model of a JavaScript value as seen by the Express JSON body parser and the
request handlers: `undefined`, `null`, booleans, (integer-valued) numbers,
strings, arrays and plain objects (ordered field lists). -/
inductive JSValue where
  | undefined : JSValue
  | null : JSValue
  | bool : Bool → JSValue
  | num : Int → JSValue
  | str : String → JSValue
  | arr : JSList → JSValue
  | obj : JSFields → JSValue
deriving DecidableEq

/-- Elements of a JavaScript array, in order. -/
inductive JSList where
  | nil : JSList
  | cons : JSValue → JSList → JSList
deriving DecidableEq

/-- Fields of a JavaScript object, in insertion order (JS objects never hold
two fields of the same name). -/
inductive JSFields where
  | nil : JSFields
  | cons : String → JSValue → JSFields → JSFields
deriving DecidableEq

end

/-- Build a `JSList` from a Lean list. -/
def JSList.ofList : List JSValue → JSList
  | [] => .nil
  | v :: t => .cons v (JSList.ofList t)

/-- Build `JSFields` from a Lean list of key/value pairs. -/
def JSFields.ofList : List (String × JSValue) → JSFields
  | [] => .nil
  | (k, v) :: t => .cons k v (JSFields.ofList t)

/-- JavaScript array literal. -/
def jArr (vs : List JSValue) : JSValue := .arr (JSList.ofList vs)

/-- JavaScript object literal. -/
def jObj (fs : List (String × JSValue)) : JSValue := .obj (JSFields.ofList fs)

/-- First field named `key`, if any. -/
def JSFields.get? : JSFields → String → Option JSValue
  | .nil, _ => none
  | .cons k v t, key => if k = key then some v else t.get? key

/-- JavaScript truthiness: `undefined`, `null`, `false`, `0` and `""` are
falsy; every other value (including any array or object) is truthy. -/
def truthy : JSValue → Bool
  | .undefined => false
  | .null => false
  | .bool b => b
  | .num n => n != 0
  | .str s => s != ""
  | .arr _ => true
  | .obj _ => true

/-- Property read `v.k` (equivalently `v?.k` for the reads the handlers do):
on an object, the field named `k` (or `undefined` when absent); the handlers
only ever read properties that are absent on non-object values, so any
non-object read yields `undefined`. -/
def getField : JSValue → String → JSValue
  | .obj fs, k => (fs.get? k).getD .undefined
  | _, _ => .undefined

/-- Embedding of `Object.prototype.hasOwnProperty.call(v, k)` for the values the handlers
pass: true exactly when `v` is an object with a field named `k`. -/
def hasField (v : JSValue) (k : String) : Bool :=
  match v with
  | .obj fs => (fs.get? k).isSome
  | _ => false

mutual

/-- JavaScript `String(v)` coercion for the values the handlers stringify. -/
def jsToString : JSValue → String
  | .undefined => "undefined"
  | .null => "null"
  | .bool b => if b then "true" else "false"
  | .num n => toString n
  | .str s => s
  | .arr xs => String.intercalate "," (jsArrayParts xs)
  | .obj _ => "[object Object]"

/-- Elements of `Array.prototype.join(",")` (used by `String(array)`):
`null` and `undefined` elements render as the empty string. -/
def jsArrayParts : JSList → List String
  | .nil => []
  | .cons v vs =>
    (match v with
     | .undefined => ""
     | .null => ""
     | w => jsToString w) :: jsArrayParts vs

end

/-- JavaScript `String.prototype.trim()`: strip whitespace from both ends.
(The strings at issue only involve ASCII whitespace, which
`Char.isWhitespace` covers.) -/
def jsTrim (s : String) : String :=
  String.mk (((s.toList.dropWhile Char.isWhitespace).reverse.dropWhile
    Char.isWhitespace).reverse)

/-- JavaScript `String.prototype.slice(0, n)` (the strings at issue are
ASCII, where UTF-16 units coincide with characters). -/
def jsSlice (s : String) (n : Nat) : String :=
  String.mk (s.toList.take n)

/-- Decimal-digit accumulator for `parseIntStr`. -/
def digitsToNat (ds : List Char) : Nat :=
  ds.foldl (fun a c => a * 10 + (c.toNat - 48)) 0

/-- JavaScript `parseInt(s, 10)`: skip leading whitespace, read an optional
sign and then the longest prefix of decimal digits; `none` models `NaN`
(no digits at all). -/
def parseIntStr (s : String) : Option Int :=
  let cs := s.toList.dropWhile Char.isWhitespace
  let signAndRest : Int × List Char :=
    match cs with
    | '-' :: t => (-1, t)
    | '+' :: t => (1, t)
    | t => (1, t)
  let ds := signAndRest.2.takeWhile Char.isDigit
  if ds.isEmpty then none
  else some (signAndRest.1 * (digitsToNat ds : Int))

/-! ## Search argument processing

`handleJsonRpc` (v6.8.1 `part_000` lines 176-181 and 207-212, v6.8.2
`server.js` lines 324-343, v6.9.4 `part_006` lines 110-143 and 173-183) and
the REST shim all process the `search` arguments the same way:

    const q = String(args.query || "").trim();
    const topK = Math.min(Math.max(parseInt(args.topK ?? 3, 10) || 3, 1), 10);
-/

/-- Embedding of `String(args.query || "").trim()`.  (Lean's `String.trim` strips ASCII
whitespace; the queries at issue only involve ASCII whitespace.) -/
def qOf (args : JSValue) : String :=
  let v := getField args "query"
  jsTrim (jsToString (if truthy v then v else .str ""))

/-- Embedding of `parseInt(args.topK ?? 3, 10)` — the nullish-coalescing default applied
before parsing; `none` models `NaN`. -/
def parsedTopKOf (args : JSValue) : Option Int :=
  let raw := getField args "topK"
  let defaulted := if raw = .undefined ∨ raw = .null then .num 3 else raw
  parseIntStr (jsToString defaulted)

/-- Embedding of `Math.min(Math.max(parseInt(args.topK ?? 3, 10) || 3, 1), 10)` — note
that `|| 3` replaces both `NaN` and `0` (both falsy) by `3`. -/
def topKOf (args : JSValue) : Int :=
  let p := match parsedTopKOf args with
    | none => 3
    | some n => if n = 0 then 3 else n
  min (max p 1) 10

/-- Stub text of the v6.8.1 `tools/call` handler (`part_000` lines 179-181),
which carries an extra "Next step" line. -/
def searchTextV681 (q : String) (topK : Int) : String :=
  if q ≠ "" then
    "Search results for \"" ++ q ++ "\" (stub)\n- No database wired yet.\n- topK="
      ++ toString topK ++ "\n- Next step: connect Supabase and return real rows."
  else "Search (stub): no query provided."

/-- Stub text of `actions/call` (all variants), of `tools/call` in v6.8.2 /
v6.9.4, and of the REST shim. -/
def searchTextShort (q : String) (topK : Int) : String :=
  if q ≠ "" then
    "Search results for \"" ++ q ++ "\" (stub)\n- No database wired yet.\n- topK="
      ++ toString topK
  else "Search (stub): no query provided."

/-! ## Shared schema / definition constants (`part_000` lines 90-111) -/

/-- Embedding of `SEARCH_INPUT_SCHEMA`: the published JSON schema of the `search`
capability; `query` is listed as required. -/
def SEARCH_INPUT_SCHEMA : JSValue :=
  jObj [("type", .str "object"),
        ("properties",
          jObj [("query", jObj [("type", .str "string"),
                                ("description", .str "What to search for.")]),
                ("topK", jObj [("type", .str "integer"),
                               ("minimum", .num 1),
                               ("maximum", .num 10),
                               ("default", .num 3)])]),
        ("required", jArr [.str "query"])]

/-- Embedding of `SEARCH_TOOL_DEF` (`part_000` lines 99-103). -/
def SEARCH_TOOL_DEF : JSValue :=
  jObj [("name", .str "search"),
        ("description",
          .str "Simple text search (stub). Returns placeholder results; to be wired to Supabase."),
        ("input_schema", SEARCH_INPUT_SCHEMA)]

/-- Embedding of `SEARCH_ACTION_DEF` (`part_000` lines 105-111). -/
def SEARCH_ACTION_DEF : JSValue :=
  jObj [("name", .str "search"),
        ("title", .str "Search"),
        ("description", .str "Search across your data (stub)."),
        ("input_schema", SEARCH_INPUT_SCHEMA),
        ("parameters", SEARCH_INPUT_SCHEMA)]

/-! ## HTTP responses and JSON-RPC envelopes -/

/-- An HTTP response as produced by the handlers: either a bare status with an
empty body (`res.sendStatus(204)`) or a status plus a JSON body
(`res.status(s).json(v)`). -/
inductive HttpResponse where
  | noBody : Nat → HttpResponse
  | json : Nat → JSValue → HttpResponse
deriving DecidableEq

/-- Embedding of `{ jsonrpc: "2.0", id, result }`. -/
def rpcResult (id : JSValue) (result : JSValue) : JSValue :=
  jObj [("jsonrpc", .str "2.0"), ("id", id), ("result", result)]

/-- Embedding of `{ jsonrpc: "2.0", id, error: { code, message } }`. -/
def rpcError (id : JSValue) (code : Int) (message : String) : JSValue :=
  jObj [("jsonrpc", .str "2.0"), ("id", id),
        ("error", jObj [("code", .num code), ("message", .str message)])]

/-- Embedding of `[{ type: "text", text }]` — the single-item content array of the stub. -/
def textContent (text : String) : JSValue :=
  jArr [jObj [("type", .str "text"), ("text", .str text)]]

/-- The forced `initialize` result (`part_000` lines 149-162). -/
def initializeResultV : JSValue :=
  jObj [("serverInfo", jObj [("name", .str "supabase-mcp"),
                             ("version", .str "1.0.0")]),
        ("protocolVersion", .str "2024-11-05"),
        ("capabilities", jObj [("tools", jObj []),
                               ("actions", jObj [("search", jObj [])])])]

/-- Embedding of `body.method || "<no-method>"`. -/
def methodOf (reqBody : JSValue) : JSValue :=
  let m := getField reqBody "method"
  if truthy m then m else .str "<no-method>"

/-- Embedding of `body.params?.name` (property access on a missing/non-object `params`
yields `undefined`). -/
def paramsNameOf (reqBody : JSValue) : JSValue :=
  getField (getField reqBody "params") "name"

/-- Embedding of `body.params?.arguments || {}`. -/
def paramsArgsOf (reqBody : JSValue) : JSValue :=
  let a := getField (getField reqBody "params") "arguments"
  if truthy a then a else jObj []

/-- The five JSON-RPC methods the fallback dispatcher handles. -/
def handledMethods : List JSValue :=
  [.str "initialize", .str "tools/list", .str "tools/call",
   .str "actions/list", .str "actions/call"]

/-- Embedding of `handleJsonRpc` of v6.8.1 (`part_000` lines 114-241), the shared handler
of `POST /messages` and `POST /sse`, on a parsed request body.

The SDK `Server` object from `@modelcontextprotocol/sdk/server` exposes
neither `handleHTTP` nor `handleRequest` (external dependency; per the spec
the fallbacks always answer), so the guards at lines 136-144 never fire and
the dispatch below is the fallback chain of lines 146-231.  The `try/catch`
around the whole body is modelled separately by `handleJsonRpcV681Run`. -/
def handleJsonRpcV681 (reqBody : JSValue) : HttpResponse :=
  let method := methodOf reqBody
  let hasId := hasField reqBody "id"
  let id := getField reqBody "id"
  if ¬hasId ∨ id = .null then .noBody 204
  else if method = .str "initialize" then
    .json 200 (rpcResult id initializeResultV)
  else if method = .str "tools/list" then
    .json 200 (rpcResult id (jObj [("tools", jArr [SEARCH_TOOL_DEF])]))
  else if method = .str "tools/call" then
    let name := paramsNameOf reqBody
    let args := paramsArgsOf reqBody
    if name = .str "search" then
      .json 200 (rpcResult id
        (jObj [("content", textContent (searchTextV681 (qOf args) (topKOf args)))]))
    else
      .json 200 (rpcError id (-32601) ("Tool " ++ jsToString name ++ " not found"))
  else if method = .str "actions/list" then
    .json 200 (rpcResult id (jObj [("actions", jArr [SEARCH_ACTION_DEF])]))
  else if method = .str "actions/call" then
    let name := paramsNameOf reqBody
    let args := paramsArgsOf reqBody
    if name = .str "search" then
      .json 200 (rpcResult id
        (jObj [("content", textContent (searchTextShort (qOf args) (topKOf args)))]))
    else
      .json 200 (rpcError id (-32601) ("Action " ++ jsToString name ++ " not found"))
  else
    .json 200 (rpcError id (-32601) ("Method " ++ jsToString method ++ " not found"))

/-- Embedding of `(req.body && req.body.id) || null` — the id placed in the catch-branch
envelope (`part_000` line 237). -/
def catchId (reqBody : JSValue) : JSValue :=
  let a := if truthy reqBody then getField reqBody "id" else reqBody
  if truthy a then a else .null

/-- One run of `handleJsonRpc` (v6.8.1) including its `try/catch`: `thrown`
is `some e` when processing the request body throws exception `e` (stringified
by `String(e)`), in which case the catch at `part_000` lines 233-240 answers
`200` with a `-32000` error envelope whose message is `String(e).slice(0,300)`. -/
def handleJsonRpcV681Run (reqBody : JSValue) (thrown : Option String) : HttpResponse :=
  match thrown with
  | some e => .json 200 (rpcError (catchId reqBody) (-32000) (jsSlice e 300))
  | none => handleJsonRpcV681 reqBody

/-- Embedding of `handleJsonRpc` of v6.9.4 (`part_006` lines 76-150).  Same dispatch as
v6.8.1 except that `tools/list` and `tools/call` are short-circuited before
the (absent) SDK helpers and the `tools/call` stub text lacks the
"Next step" line (it equals the v6.8.2 text). -/
def handleJsonRpcV694 (reqBody : JSValue) : HttpResponse :=
  let method := methodOf reqBody
  let hasId := hasField reqBody "id"
  let id := getField reqBody "id"
  if ¬hasId ∨ id = .null then .noBody 204
  else if method = .str "initialize" then
    .json 200 (rpcResult id initializeResultV)
  else if method = .str "tools/list" then
    .json 200 (rpcResult id (jObj [("tools", jArr [SEARCH_TOOL_DEF])]))
  else if method = .str "tools/call" then
    let name := paramsNameOf reqBody
    let args := paramsArgsOf reqBody
    if name = .str "search" then
      .json 200 (rpcResult id
        (jObj [("content", textContent (searchTextShort (qOf args) (topKOf args)))]))
    else
      .json 200 (rpcError id (-32601) ("Tool " ++ jsToString name ++ " not found"))
  else if method = .str "actions/list" then
    .json 200 (rpcResult id (jObj [("actions", jArr [SEARCH_ACTION_DEF])]))
  else if method = .str "actions/call" then
    let name := paramsNameOf reqBody
    let args := paramsArgsOf reqBody
    if name = .str "search" then
      .json 200 (rpcResult id
        (jObj [("content", textContent (searchTextShort (qOf args) (topKOf args)))]))
    else
      .json 200 (rpcError id (-32601) ("Action " ++ jsToString name ++ " not found"))
  else
    .json 200 (rpcError id (-32601) ("Method " ++ jsToString method ++ " not found"))

/-! ## REST `/actions` shim (v6.9.4, `part_006` lines 167-221) -/

/-- Body of the REST success response
`{ ...result, jsonrpc: "2.0", id: 0, result }` where
`result = { content: [...] }` (the object spread copies `content` to the
top level). -/
def restOkBody (text : String) : JSValue :=
  jObj [("content", textContent text),
        ("jsonrpc", .str "2.0"),
        ("id", .num 0),
        ("result", jObj [("content", textContent text)])]

/-- Body of the REST not-found response (`part_006` lines 184-188). -/
def restNotFoundBody (name : String) : JSValue :=
  jObj [("error", .str ("Action " ++ name ++ " not found")),
        ("jsonrpc", .str "2.0"),
        ("id", .num 0),
        ("errorRPC", jObj [("code", .num (-32601)),
                           ("message", .str ("Action " ++ name ++ " not found"))])]

/-- Embedding of `restCallHandler(name, args, res)` (`part_006` lines 173-189): status
`200` with the stub content for `"search"`, status `404` with a not-found
payload for any other name. -/
def restCallHandler (name : JSValue) (args : JSValue) : HttpResponse :=
  if name = .str "search" then
    .json 200 (restOkBody (searchTextShort (qOf args) (topKOf args)))
  else
    .json 404 (restNotFoundBody (jsToString name))

/-- Embedding of `GET /actions/call` (`part_006` lines 204-213).  `parse` is the behaviour
of `JSON.parse` on the runtime (`none` models a parse exception); `nameQ` and
`argumentsQ` are the raw `name` / `arguments` query parameters (absent or a
string).  A present-but-unparsable `arguments` falls back to `{}` via the
`try/catch`. -/
def getActionsCall (parse : String → Option JSValue)
    (nameQ : Option String) (argumentsQ : Option String) : HttpResponse :=
  let name := jsTrim (match nameQ with | some s => s | none => "")
  let args : JSValue :=
    match argumentsQ with
    | some s => match parse s with
      | some v => v
      | none => jObj []
    | none => jObj []
  restCallHandler (.str name) args

/-! ## `POST /messages` of the transport-proxy variant (`part_003` lines 139-170) -/

/-- Outcome of the transport-proxy `POST /messages` handler: either an HTTP
response written by the handler itself, or the response was written by the
SDK transport inside `handlePostMessage`. -/
inductive MsgOutcome where
  | http : HttpResponse → MsgOutcome
  | viaTransport : MsgOutcome
deriving DecidableEq

/-- The `POST /messages` handler of the transport-proxy variant (`part_003`
lines 139-170): `transports` is the `sseTransports` map (sessionId to
transport token), `sessionIdQ` the raw `sessionId` query parameter, `thrown`
is `some e` when `transport.handlePostMessage` throws, and `sdkSent` tells
whether the SDK already sent/ended the response (`res.headersSent` /
`res.writableEnded`). -/
def postMessagesV63 (transports : List (String × Nat)) (sessionIdQ : Option String)
    (thrown : Option String) (sdkSent : Bool) : MsgOutcome :=
  let sessionId := sessionIdQ.getD ""
  let transport := transports.find? (fun p => p.1 = sessionId)
  if sessionId = "" ∨ transport = none then
    .http (.json 400 (jObj [("error", .str "No transport found for sessionId")]))
  else
    match thrown with
    | some _ =>
      if sdkSent then .viaTransport
      else .http (.json 500 (jObj [("error", .str "Internal error")]))
    | none =>
      if sdkSent then .viaTransport
      else .http (.json 200 (jObj [("ok", .bool true)]))

/-! ## The `db.rows` tool handler (`server.js` lines 55-81) -/

/-- Minimal string escaping of `JSON.stringify` (sufficient for the values at
issue, which contain no control characters). -/
def jsEscape (s : String) : String :=
  String.join (s.toList.map fun c =>
    if c = '"' then "\\\""
    else if c = '\\' then "\\\\"
    else if c = '\n' then "\\n"
    else String.singleton c)

mutual

/-- Embedding of `JSON.stringify` (whitespace-insensitive embedding: the source passes
`(null, 2)` for pretty-printing, which only inserts whitespace). -/
def jsonStringify : JSValue → String
  | .undefined => "null"
  | .null => "null"
  | .bool b => if b then "true" else "false"
  | .num n => toString n
  | .str s => "\"" ++ jsEscape s ++ "\""
  | .arr xs => "[" ++ String.intercalate "," (jsonStringifyList xs) ++ "]"
  | .obj fs => "\x7b" ++ String.intercalate "," (jsonStringifyFields fs) ++ "\x7d"

/-- Array elements of `JSON.stringify`. -/
def jsonStringifyList : JSList → List String
  | .nil => []
  | .cons v t => jsonStringify v :: jsonStringifyList t

/-- Object fields of `JSON.stringify`. -/
def jsonStringifyFields : JSFields → List String
  | .nil => []
  | .cons k v t => ("\"" ++ jsEscape k ++ "\":" ++ jsonStringify v) :: jsonStringifyFields t

end

/-- Result of `supabase.from(table).select("*").range(from, to)`: either a
data payload or an error with a message. -/
inductive SupabaseResult where
  | ok : JSValue → SupabaseResult
  | err : String → SupabaseResult

/-- A database client: `table`, range `from`, range `to` mapped to the query
result. -/
def DbClient : Type := String → Nat → Nat → SupabaseResult

/-- The `db.rows` tool handler (`server.js` lines 66-80): queries the
Supabase client with `.range(offset, offset + limit - 1)` and embeds either
the error message or `JSON.stringify({ rows: data })` in the returned
content. -/
def dbRowsHandler (db : DbClient) (table : String) (limit offset : Nat) : JSValue :=
  match db table offset (offset + limit - 1) with
  | .err m =>
    jObj [("isError", .bool true),
          ("content", textContent ("Supabase error: " ++ m))]
  | .ok data =>
    jObj [("content", textContent (jsonStringify (jObj [("rows", data)])))]

/-! ## The `sseTransports` session map (`server.js` lines 109-128,
`part_005` lines 102-121)

State machine of the process-wide map from session identifier to open SSE
transport.  Open connections are tokens (`Nat`), each carrying the session
identifier the SDK transport generated for it.  `GET /sse` inserts the new
transport under its `sessionId`; the response's `close` event deletes that
`sessionId`; `POST /messages` only reads the map. -/

/-- Embedding of `sseTransports[k] = v` — JavaScript object assignment: overwrite an
existing field in place, else append in insertion order. -/
def jsSetKey (m : List (String × Nat)) (k : String) (v : Nat) : List (String × Nat) :=
  if m.any (fun p => p.1 = k) then
    m.map (fun p => if p.1 = k then (k, v) else p)
  else m ++ [(k, v)]

/-- Embedding of `delete sseTransports[k]`. -/
def jsDeleteKey (m : List (String × Nat)) (k : String) : List (String × Nat) :=
  m.filter (fun p => p.1 ≠ k)

/-- Process state: the `sseTransports` map and the set of open SSE
connections (token plus the sessionId its transport was created with). -/
structure SseState where
  transports : List (String × Nat)
  openConns : List (Nat × String)
deriving DecidableEq

/-- Events touching (or merely passing by) the `sseTransports` map. -/
inductive SseEvent where
  | openSse : Nat → String → SseEvent
  | closeSse : Nat → SseEvent
  | postMessage : String → SseEvent

/-- One step of the server: a successful `GET /sse` registers the transport
under its sessionId (`server.js` line 115) and the connection becomes open;
the `close` event of an open connection deletes that connection's sessionId
(`server.js` line 120); `POST /messages` does not touch the map. -/
def sseStep (s : SseState) : SseEvent → SseState
  | .openSse conn sid =>
    ⟨jsSetKey s.transports sid conn, s.openConns ++ [(conn, sid)]⟩
  | .closeSse conn =>
    match s.openConns.find? (fun p => p.1 = conn) with
    | some p => ⟨jsDeleteKey s.transports p.2,
                 s.openConns.filter (fun p => p.1 ≠ conn)⟩
    | none => s
  | .postMessage _ => s

/-- Reachable states.  A `GET /sse` opens a fresh connection token, and its
transport's sessionId is fresh among the open connections — modelled from
the spec: the sessionId is generated by the external SDK
(`SSEServerTransport`) as an identifier "unique for the lifetime of one
connection".  `close` fires only for connections (no-op otherwise, per
`sseStep`), and `POST /messages` may carry any sessionId. -/
inductive SseReachable : SseState → Prop
  | init : SseReachable ⟨[], []⟩
  | openStep {s : SseState} {conn : Nat} {sid : String} :
      SseReachable s →
      s.openConns.all (fun p => p.1 ≠ conn) = true →
      s.openConns.all (fun p => p.2 ≠ sid) = true →
      SseReachable (sseStep s (.openSse conn sid))
  | closeStep {s : SseState} {conn : Nat} :
      SseReachable s → SseReachable (sseStep s (.closeSse conn))
  | postStep {s : SseState} {sid : String} :
      SseReachable s → SseReachable (sseStep s (.postMessage sid))

/-- The invariant tying the map to the open connections: the map is exactly
the open-connection list keyed by sessionId, and both tokens and sessionIds
of open connections are pairwise distinct. -/
def SseInv (s : SseState) : Prop :=
  s.transports = s.openConns.map (fun p => (p.2, p.1)) ∧
  (s.openConns.map Prod.fst).Nodup ∧
  (s.openConns.map Prod.snd).Nodup

/-! ## Observation helpers -/

/-- Status code of a response. -/
def respStatus : HttpResponse → Nat
  | .noBody s => s
  | .json s _ => s

/-- JSON body of a response (`undefined` when the body is empty). -/
def bodyOf : HttpResponse → JSValue
  | .noBody _ => .undefined
  | .json _ b => b

/-- Whether the response carries a JSON body at all. -/
def hasJsonBody : HttpResponse → Bool
  | .noBody _ => false
  | .json _ _ => true

/-- A JSON-RPC call request body
`{ jsonrpc: "2.0", id, method, params: { name, arguments } }`. -/
def mkCallBody (method : String) (id : JSValue) (name : JSValue) (args : JSValue) : JSValue :=
  jObj [("jsonrpc", .str "2.0"), ("id", id), ("method", .str method),
        ("params", jObj [("name", name), ("arguments", args)])]

/-- Extracts `body.result.content` of a response. -/
def resultContentOf (r : HttpResponse) : JSValue :=
  getField (getField (bodyOf r) "result") "content"

/-- Extracts `body.error` of a JSON-RPC response. -/
def rpcErrorOf (r : HttpResponse) : JSValue :=
  getField (bodyOf r) "error"

/-- Extracts `body.errorRPC` of a REST shim response. -/
def restErrorRPCOf (r : HttpResponse) : JSValue :=
  getField (bodyOf r) "errorRPC"

/-- Status of a `POST /messages` outcome, when the handler itself wrote the
response. -/
def msgStatus : MsgOutcome → Option Nat
  | .http r => some (respStatus r)
  | .viaTransport => none

/-! # Theorems -/

/-- A falsy value is not an object, so any property read on it yields
`undefined`. -/
theorem getField_falsy {a : JSValue} (h : truthy a = false) (k : String) :
    getField a k = .undefined := by
  cases a <;> simp_all [truthy, getField]

/-- A falsy `arguments` value carries no usable `query`. -/
theorem qOf_falsy {a : JSValue} (h : truthy a = false) : qOf a = "" := by
  unfold qOf
  rw [getField_falsy h]
  decide

/-- A falsy `arguments` value falls back to the default `topK = 3`. -/
theorem topKOf_falsy {a : JSValue} (h : truthy a = false) : topKOf a = 3 := by
  unfold topKOf parsedTopKOf
  rw [getField_falsy h]
  decide

/-- Fields `args.query` and `args.topK` are read through `args || {}`, which changes
nothing observable: a falsy `args` behaves like the empty object. -/
theorem qOf_argsOr (a : JSValue) :
    qOf (if truthy a then a else jObj []) = qOf a ∧
    topKOf (if truthy a then a else jObj []) = topKOf a := by
  cases h : truthy a with
  | true => simp
  | false =>
    have h1 : qOf (jObj []) = "" := by decide
    have h2 : topKOf (jObj []) = 3 := by decide
    simp [qOf_falsy h, topKOf_falsy h, h1, h2]

/-- The clamp `Math.min(Math.max(p, 1), 10)` always lands in `[1, 10]`. -/
theorem clamp_bounds (p : Int) :
    1 ≤ min (max p 1) 10 ∧ min (max p 1) 10 ≤ 10 :=
  ⟨le_min (le_max_right _ _) (by norm_num), min_le_right _ _⟩

/-- C8, counterexample.  The claim says a missing, non-numeric, or
out-of-range `topK` is replaced by `3` before clamping (and that values below
`1` become `1`).  The code instead clamps out-of-range parsed values
(`topK = 100` yields `10`, not `3`) and replaces a parsed `0` by `3` (because
`0` is falsy in `parseInt(...) || 3`), never by the clamp to `1`. -/
theorem c8_counterexample :
    topKOf (jObj [("topK", .num 100)]) = 10 ∧
    topKOf (jObj [("topK", .num 0)]) = 3 ∧
    ¬ ((10 : Int) = 3) ∧ ¬ ((3 : Int) = 1) := by
  refine ⟨by decide, by decide, by decide, by decide⟩

/-- C8, amended.  The `topK` echoed in the stub text (`topKOf`, used by every
`search` branch) always lies in `[1, 10]`; a missing, non-numeric, or
zero-parsing `topK` (i.e. `parseInt(args.topK ?? 3, 10)` yields `NaN` or `0`)
is replaced by `3`; every other parsed value `n` is clamped to
`min (max n 1) 10`. -/
theorem c8_amended (args : JSValue) :
    (1 ≤ topKOf args ∧ topKOf args ≤ 10) ∧
    (parsedTopKOf args = none → topKOf args = 3) ∧
    (parsedTopKOf args = some 0 → topKOf args = 3) ∧
    (∀ n : Int, parsedTopKOf args = some n → n ≠ 0 → topKOf args = min (max n 1) 10) := by
  unfold topKOf
  rcases h : parsedTopKOf args with _ | n
  · simpa [h] using clamp_bounds 3
  · by_cases hn : n = 0
    · simp only [h, hn]
      refine ⟨by simpa using clamp_bounds 3, by simp, by simp, ?_⟩
      intro m hm hm0
      simp at hm
      omega
    · simp only [h]
      refine ⟨by simpa [hn] using clamp_bounds n, by simp, by simp [hn], ?_⟩
      intro m hm hm0
      simp at hm
      subst hm
      simp [hn]

/-- C8, witness: `topK = 100` parses to `100` and is clamped to `10`,
inside the bounds. -/
theorem c8_amended_witness :
    (1 ≤ topKOf (jObj [("topK", .num 100)]) ∧ topKOf (jObj [("topK", .num 100)]) ≤ 10) ∧
    topKOf (jObj [("topK", .num 100)]) = min (max 100 1) 10 :=
  ⟨(c8_amended (jObj [("topK", .num 100)])).1,
   (c8_amended (jObj [("topK", .num 100)])).2.2.2 100 (by decide) (by decide)⟩

/-- A call body always carries its `id` member. -/
theorem mkCallBody_hasId (m : String) (id name args : JSValue) :
    hasField (mkCallBody m id name args) "id" = true := by
  simp [mkCallBody, jObj, JSFields.ofList, hasField, JSFields.get?]

/-- Reading `id` from a call body. -/
theorem mkCallBody_id (m : String) (id name args : JSValue) :
    getField (mkCallBody m id name args) "id" = id := by
  simp [mkCallBody, jObj, JSFields.ofList, getField, JSFields.get?]

/-- Reading the method of a call body. -/
theorem methodOf_mkCallBody (m : String) (id name args : JSValue) (h : m ≠ "") :
    methodOf (mkCallBody m id name args) = .str m := by
  simp [methodOf, mkCallBody, jObj, JSFields.ofList, getField, JSFields.get?, truthy, h]

/-- Reading `params.name` from a call body. -/
theorem paramsNameOf_mkCallBody (m : String) (id name args : JSValue) :
    paramsNameOf (mkCallBody m id name args) = name := by
  simp [paramsNameOf, mkCallBody, jObj, JSFields.ofList, getField, JSFields.get?]

/-- Reading `params.arguments || {}` from a call body. -/
theorem paramsArgsOf_mkCallBody (m : String) (id name args : JSValue) :
    paramsArgsOf (mkCallBody m id name args) = if truthy args then args else jObj [] := by
  simp [paramsArgsOf, mkCallBody, jObj, JSFields.ofList, getField, JSFields.get?]

/-- C9.  The published input schema marks `query` as required, yet a
`tools/call` or `actions/call` of `search` whose `query` argument is missing,
empty or whitespace-only (all of which make `qOf args = ""`) is not rejected:
it returns a success envelope — a `result` member and no `error` member —
whose single text item is exactly `"Search (stub): no query provided."`. -/
theorem c9_empty_query_succeeds :
    getField SEARCH_INPUT_SCHEMA "required" = jArr [.str "query"] ∧
    (∀ id result : JSValue, hasField (rpcResult id result) "error" = false) ∧
    (∀ id args : JSValue, id ≠ .null → qOf args = "" →
      handleJsonRpcV681 (mkCallBody "tools/call" id (.str "search") args) =
        .json 200 (rpcResult id
          (jObj [("content", textContent "Search (stub): no query provided.")])) ∧
      handleJsonRpcV681 (mkCallBody "actions/call" id (.str "search") args) =
        .json 200 (rpcResult id
          (jObj [("content", textContent "Search (stub): no query provided.")]))) := by
  refine ⟨by decide, fun id result => by simp [rpcResult, jObj, JSFields.ofList, hasField, JSFields.get?], ?_⟩
  intro id args hid hq
  have ha := qOf_argsOr args
  constructor
  · simp [handleJsonRpcV681, methodOf_mkCallBody, mkCallBody_hasId, mkCallBody_id,
      paramsNameOf_mkCallBody, paramsArgsOf_mkCallBody, hid, ha.1, hq, searchTextV681]
  · simp [handleJsonRpcV681, methodOf_mkCallBody, mkCallBody_hasId, mkCallBody_id,
      paramsNameOf_mkCallBody, paramsArgsOf_mkCallBody, hid, ha.1, hq, searchTextShort]

/-- C9, witness: a whitespace-only query with a valid id hits the
"no query provided" stub. -/
theorem c9_empty_query_succeeds_witness :
    handleJsonRpcV681 (mkCallBody "tools/call" (.num 7) (.str "search")
        (jObj [("query", .str "   ")])) =
      .json 200 (rpcResult (.num 7)
        (jObj [("content", textContent "Search (stub): no query provided.")])) :=
  ((c9_empty_query_succeeds.2.2 (.num 7) (jObj [("query", .str "   ")])
    (by decide) (by decide)).1)

/-- C3.  For every JSON-RPC request carrying a (non-null) id: an unhandled
method yields a `-32601` envelope naming the method; `tools/call` with a name
other than `"search"` yields a `-32601` envelope naming the tool; and
`actions/call` with a name other than `"search"` yields a `-32601` envelope
naming the action.  (A null id is treated as a notification by the handler,
matching JSON-RPC notifications.) -/
theorem c3_unknown_not_found :
    (∀ reqBody : JSValue, hasField reqBody "id" = true →
      getField reqBody "id" ≠ .null →
      methodOf reqBody ∉ handledMethods →
      handleJsonRpcV681 reqBody =
        .json 200 (rpcError (getField reqBody "id") (-32601)
          ("Method " ++ jsToString (methodOf reqBody) ++ " not found"))) ∧
    (∀ id name args : JSValue, id ≠ .null → name ≠ .str "search" →
      handleJsonRpcV681 (mkCallBody "tools/call" id name args) =
        .json 200 (rpcError id (-32601) ("Tool " ++ jsToString name ++ " not found"))) ∧
    (∀ id name args : JSValue, id ≠ .null → name ≠ .str "search" →
      handleJsonRpcV681 (mkCallBody "actions/call" id name args) =
        .json 200 (rpcError id (-32601) ("Action " ++ jsToString name ++ " not found"))) := by
  refine ⟨?_, ?_, ?_⟩
  · intro reqBody h1 h2 hm
    simp only [handledMethods, List.mem_cons, List.not_mem_nil, or_false, not_or] at hm
    obtain ⟨hm1, hm2, hm3, hm4, hm5⟩ := hm
    simp [handleJsonRpcV681, h1, h2, hm1, hm2, hm3, hm4, hm5]
  · intro id name args hid hn
    simp [handleJsonRpcV681, methodOf_mkCallBody, mkCallBody_hasId, mkCallBody_id,
      paramsNameOf_mkCallBody, hid, hn]
  · intro id name args hid hn
    simp [handleJsonRpcV681, methodOf_mkCallBody, mkCallBody_hasId, mkCallBody_id,
      paramsNameOf_mkCallBody, hid, hn]

/-- C3, witness: an unknown method, an unknown tool and an unknown action all
receive their `-32601` envelopes. -/
theorem c3_unknown_not_found_witness :
    handleJsonRpcV681 (jObj [("id", .num 4), ("method", .str "resources/list")]) =
      .json 200 (rpcError (.num 4) (-32601) ("Method resources/list not found")) ∧
    handleJsonRpcV681 (mkCallBody "tools/call" (.num 5) (.str "db.rows") (jObj [])) =
      .json 200 (rpcError (.num 5) (-32601) ("Tool db.rows not found")) ∧
    handleJsonRpcV681 (mkCallBody "actions/call" (.num 6) (.str "fetch") (jObj [])) =
      .json 200 (rpcError (.num 6) (-32601) ("Action fetch not found")) := by
  refine ⟨?_, ?_, ?_⟩
  · have h := c3_unknown_not_found.1 (jObj [("id", .num 4), ("method", .str "resources/list")])
      (by decide) (by decide) (by decide)
    simpa using h
  · exact c3_unknown_not_found.2.1 (.num 5) (.str "db.rows") (jObj []) (by decide) (by decide)
  · exact c3_unknown_not_found.2.2 (.num 6) (.str "fetch") (jObj []) (by decide) (by decide)

/-- The result envelope has a `result` member. -/
theorem hasField_rpcResult (id result : JSValue) :
    hasField (rpcResult id result) "result" = true := by
  simp [rpcResult, jObj, JSFields.ofList, hasField, JSFields.get?]

/-- The error envelope has an `error` member. -/
theorem hasField_rpcError (id : JSValue) (code : Int) (message : String) :
    hasField (rpcError id code message) "error" = true := by
  simp [rpcError, jObj, JSFields.ofList, hasField, JSFields.get?]

/-- C5, counterexample.  A notification (a body with a method name but no id)
is answered with `204` and an *empty* body: no JSON envelope, no `result`, no
`error`. -/
theorem c5_counterexample :
    handleJsonRpcV681
        (jObj [("jsonrpc", .str "2.0"), ("method", .str "notifications/initialized")]) =
      .noBody 204 ∧
    hasJsonBody (handleJsonRpcV681
        (jObj [("jsonrpc", .str "2.0"), ("method", .str "notifications/initialized")])) = false := by
  exact ⟨by decide, by decide⟩

/-- C5, amended.  For every request body that carries a non-null id, the
handler answers with status 200 and a JSON envelope containing a `result`
member or an `error` member; a body with no id (or a null id) is a
notification and is acknowledged with an empty `204` instead. -/
theorem c5_amended (reqBody : JSValue) (h1 : hasField reqBody "id" = true)
    (h2 : getField reqBody "id" ≠ .null) :
    ∃ b, handleJsonRpcV681 reqBody = .json 200 b ∧
      (hasField b "result" || hasField b "error") = true := by
  simp only [handleJsonRpcV681, h1, h2, not_true, or_self, or_false, false_or,
    if_false]
  split_ifs <;>
    exact ⟨_, rfl, by simp [hasField_rpcResult, hasField_rpcError]⟩

/-- C5, witness: a `tools/list` request with id 1 is answered with a
result-or-error envelope. -/
theorem c5_amended_witness :
    ∃ b, handleJsonRpcV681 (jObj [("id", .num 1), ("method", .str "tools/list")]) =
      .json 200 b ∧ (hasField b "result" || hasField b "error") = true :=
  c5_amended (jObj [("id", .num 1), ("method", .str "tools/list")]) (by decide) (by decide)

/-- C1, counterexample.  The `db.rows` tool handler of the `McpServer`
variants does produce its response from the database client: the rows the
client returns are embedded in the response text, so two database states
yield two different responses to the same request. -/
theorem c1_counterexample :
    dbRowsHandler (fun _ _ _ => .ok (jArr [.str "alice"])) "users" 50 0 =
      jObj [("content", textContent "\x7b\"rows\":[\"alice\"]\x7d")] ∧
    dbRowsHandler (fun _ _ _ => .ok (jArr [.str "alice"])) "users" 50 0 ≠
      dbRowsHandler (fun _ _ _ => .ok (jArr [.str "bob"])) "users" 50 0 :=
  ⟨by decide, by decide⟩

/-- C1, amended.  The stub `search` handler never touches the database:
`handleJsonRpc` is a function of the request body alone (no database client
in scope), and every `tools/call` / `actions/call` of `"search"` with a
non-null id answers with a single text item computed only from the trimmed
query string `qOf args` and the clamped `topKOf args`.  The `db.rows` (and
`sql.query`) tool handlers of the `McpServer` variants, by contrast, do embed
database query results in their responses. -/
theorem c1_amended (id args : JSValue) (hid : id ≠ .null) :
    handleJsonRpcV681 (mkCallBody "tools/call" id (.str "search") args) =
      .json 200 (rpcResult id
        (jObj [("content", textContent (searchTextV681 (qOf args) (topKOf args)))])) ∧
    handleJsonRpcV681 (mkCallBody "actions/call" id (.str "search") args) =
      .json 200 (rpcResult id
        (jObj [("content", textContent (searchTextShort (qOf args) (topKOf args)))])) := by
  have ha := qOf_argsOr args
  constructor
  · simp [handleJsonRpcV681, methodOf_mkCallBody, mkCallBody_hasId, mkCallBody_id,
      paramsNameOf_mkCallBody, paramsArgsOf_mkCallBody, hid, ha.1, ha.2]
  · simp [handleJsonRpcV681, methodOf_mkCallBody, mkCallBody_hasId, mkCallBody_id,
      paramsNameOf_mkCallBody, paramsArgsOf_mkCallBody, hid, ha.1, ha.2]

/-- C1, witness: a concrete `tools/call` of `search` answers the stub text
built from the query and the clamped topK. -/
theorem c1_amended_witness :
    handleJsonRpcV681 (mkCallBody "tools/call" (.num 1) (.str "search")
        (jObj [("query", .str "hello"), ("topK", .num 5)])) =
      .json 200 (rpcResult (.num 1)
        (jObj [("content", textContent (searchTextV681
          (qOf (jObj [("query", .str "hello"), ("topK", .num 5)]))
          (topKOf (jObj [("query", .str "hello"), ("topK", .num 5)]))))])) :=
  (c1_amended (.num 1) (jObj [("query", .str "hello"), ("topK", .num 5)]) (by decide)).1

/-- Reading the `id` of an error envelope. -/
theorem getField_rpcError_id (id : JSValue) (code : Int) (message : String) :
    getField (rpcError id code message) "id" = id := by
  simp [rpcError, jObj, JSFields.ofList, getField, JSFields.get?]

/-- Reading the `error` of an error envelope. -/
theorem getField_rpcError_error (id : JSValue) (code : Int) (message : String) :
    getField (rpcError id code message) "error" =
      jObj [("code", .num code), ("message", .str message)] := by
  simp [rpcError, jObj, JSFields.ofList, getField, JSFields.get?]

/-- A truthy property can only be read off an object (property reads on
non-objects here yield `undefined`). -/
theorem truthy_of_truthy_getField {a : JSValue} {k : String}
    (h : truthy (getField a k) = true) : truthy a = true := by
  cases a <;> simp_all [getField, truthy]

/-- C2, counterexample.  In the transport-proxy variant, a throw inside
`transport.handlePostMessage` before anything was sent is answered with HTTP
status 500 and a plain `{ error: "Internal error" }` body — not a 200-status
JSON-RPC envelope with code -32000. -/
theorem c2_counterexample :
    postMessagesV63 [("s1", 7)] (some "s1") (some "boom") false =
      .http (.json 500 (jObj [("error", .str "Internal error")])) ∧
    msgStatus (postMessagesV63 [("s1", 7)] (some "s1") (some "boom") false) = some 500 ∧
    ¬ ((500 : Nat) = 200) :=
  ⟨by decide, by decide, by decide⟩

/-- C2, amended.  In the inline-handler variants
(`handleJsonRpcV681Run`), a throw while processing a POST body is always
converted to a 200-status JSON-RPC envelope with error code `-32000` and
message `String(e).slice(0, 300)`, whose id is the request's id when that id
is truthy and `null` otherwise (a present-but-falsy id such as `0` also
becomes `null`, because the catch computes `(req.body && req.body.id) || null`). -/
theorem c2_amended (reqBody : JSValue) (e : String) :
    respStatus (handleJsonRpcV681Run reqBody (some e)) = 200 ∧
    rpcErrorOf (handleJsonRpcV681Run reqBody (some e)) =
      jObj [("code", .num (-32000)), ("message", .str (jsSlice e 300))] ∧
    (truthy (getField reqBody "id") = true →
      getField (bodyOf (handleJsonRpcV681Run reqBody (some e))) "id" =
        getField reqBody "id") ∧
    (truthy (getField reqBody "id") = false →
      getField (bodyOf (handleJsonRpcV681Run reqBody (some e))) "id" = .null) := by
  refine ⟨rfl, ?_, ?_, ?_⟩
  · simp [handleJsonRpcV681Run, rpcErrorOf, bodyOf, getField_rpcError_error]
  · intro h
    have hb : truthy reqBody = true := truthy_of_truthy_getField h
    simp [handleJsonRpcV681Run, bodyOf, getField_rpcError_id, catchId, hb, h]
  · intro h
    cases hb : truthy reqBody <;>
      simp [handleJsonRpcV681Run, bodyOf, getField_rpcError_id, catchId, hb, h]

/-- C2, witness: a request with the falsy id `0` that throws is answered with
a 200-status `-32000` envelope whose id is `null`. -/
theorem c2_amended_witness :
    respStatus (handleJsonRpcV681Run (jObj [("id", .num 0)]) (some "boom")) = 200 ∧
    getField (bodyOf (handleJsonRpcV681Run (jObj [("id", .num 0)]) (some "boom"))) "id" =
      .null :=
  ⟨(c2_amended (jObj [("id", .num 0)]) "boom").1,
   (c2_amended (jObj [("id", .num 0)]) "boom").2.2.2 (by decide)⟩

/-- Reading the `result` of a result envelope. -/
theorem getField_rpcResult_result (id result : JSValue) :
    getField (rpcResult id result) "result" = result := by
  simp [rpcResult, jObj, JSFields.ofList, getField, JSFields.get?]

/-- A result envelope has no `error`. -/
theorem getField_rpcResult_error (id result : JSValue) :
    getField (rpcResult id result) "error" = .undefined := by
  simp [rpcResult, jObj, JSFields.ofList, getField, JSFields.get?]

/-- An error envelope has no `result`. -/
theorem getField_rpcError_result (id : JSValue) (code : Int) (message : String) :
    getField (rpcError id code message) "result" = .undefined := by
  simp [rpcError, jObj, JSFields.ofList, getField, JSFields.get?]

/-- Reading the `result` of a REST success body. -/
theorem getField_restOkBody_result (text : String) :
    getField (restOkBody text) "result" = jObj [("content", textContent text)] := by
  simp [restOkBody, jObj, JSFields.ofList, getField, JSFields.get?]

/-- A REST success body has no `errorRPC`. -/
theorem getField_restOkBody_errorRPC (text : String) :
    getField (restOkBody text) "errorRPC" = .undefined := by
  simp [restOkBody, jObj, JSFields.ofList, getField, JSFields.get?]

/-- A REST not-found body has no `result`. -/
theorem getField_restNotFoundBody_result (name : String) :
    getField (restNotFoundBody name) "result" = .undefined := by
  simp [restNotFoundBody, jObj, JSFields.ofList, getField, JSFields.get?]

/-- Reading the `errorRPC` of a REST not-found body. -/
theorem getField_restNotFoundBody_errorRPC (name : String) :
    getField (restNotFoundBody name) "errorRPC" =
      jObj [("code", .num (-32601)),
            ("message", .str ("Action " ++ name ++ " not found"))] := by
  simp [restNotFoundBody, jObj, JSFields.ofList, getField, JSFields.get?]

/-- Reading the `content` of a `{ content: ... }` payload. -/
theorem getField_contentObj (v : JSValue) :
    getField (jObj [("content", v)]) "content" = v := by
  simp [jObj, JSFields.ofList, getField, JSFields.get?]

/-- Property reads on `undefined` yield `undefined`. -/
theorem getField_undef (k : String) : getField .undefined k = .undefined := rfl

/-- C6.  The REST `/actions/call` shim mirrors the JSON-RPC `actions/call`
capability: for every `name` and `arguments`, the REST handler and the
JSON-RPC handler produce the same `result.content` array (the same stub text
for `"search"`, and no content otherwise), and the REST `errorRPC` member
equals the JSON-RPC `error` member (the same `-32601` "Action ... not found"
object for any name other than `"search"`, and nothing otherwise). -/
theorem c6_rest_mirrors_rpc (name args : JSValue) :
    resultContentOf (restCallHandler name args) =
      resultContentOf (handleJsonRpcV694 (mkCallBody "actions/call" (.num 1) name args)) ∧
    restErrorRPCOf (restCallHandler name args) =
      rpcErrorOf (handleJsonRpcV694 (mkCallBody "actions/call" (.num 1) name args)) := by
  have ha := qOf_argsOr args
  by_cases hn : name = .str "search"
  · subst hn
    constructor
    · simp [handleJsonRpcV694, methodOf_mkCallBody, mkCallBody_hasId, mkCallBody_id,
        paramsNameOf_mkCallBody, paramsArgsOf_mkCallBody, ha.1, ha.2,
        restCallHandler, resultContentOf, bodyOf,
        getField_rpcResult_result, getField_restOkBody_result, getField_contentObj]
    · simp [handleJsonRpcV694, methodOf_mkCallBody, mkCallBody_hasId, mkCallBody_id,
        paramsNameOf_mkCallBody, paramsArgsOf_mkCallBody, ha.1, ha.2,
        restCallHandler, restErrorRPCOf, rpcErrorOf, bodyOf,
        getField_rpcResult_error, getField_restOkBody_errorRPC]
  · constructor
    · simp [handleJsonRpcV694, methodOf_mkCallBody, mkCallBody_hasId, mkCallBody_id,
        paramsNameOf_mkCallBody, paramsArgsOf_mkCallBody, hn,
        restCallHandler, resultContentOf, bodyOf, getField_undef,
        getField_rpcError_result, getField_restNotFoundBody_result]
    · simp [handleJsonRpcV694, methodOf_mkCallBody, mkCallBody_hasId, mkCallBody_id,
        paramsNameOf_mkCallBody, paramsArgsOf_mkCallBody, hn,
        restCallHandler, restErrorRPCOf, rpcErrorOf, bodyOf,
        getField_rpcError_error, getField_restNotFoundBody_errorRPC]

/-- C10.  A `GET /actions/call` whose `arguments` query parameter is present
but not valid JSON (`parse s = none` models the `JSON.parse` throw) behaves
exactly as if no `arguments` had been supplied; in particular, for
`name=search` it still succeeds with status 200 and the "no query provided"
stub. -/
theorem c10_bad_arguments_ignored (parse : String → Option JSValue)
    (nameQ : Option String) (s : String) (h : parse s = none) :
    getActionsCall parse nameQ (some s) = getActionsCall parse nameQ none ∧
    getActionsCall parse (some "search") (some s) =
      .json 200 (restOkBody "Search (stub): no query provided.") := by
  constructor
  · simp [getActionsCall, h]
  · simp only [getActionsCall, h]
    decide

/-- C10, witness: a parse function that rejects the string behaves like the
empty object. -/
theorem c10_bad_arguments_ignored_witness :
    getActionsCall (fun _ => none) (some "x") (some "not-json") =
      getActionsCall (fun _ => none) (some "x") none ∧
    getActionsCall (fun _ => none) (some "search") (some "not-json") =
      .json 200 (restOkBody "Search (stub): no query provided.") :=
  c10_bad_arguments_ignored (fun _ => none) (some "x") "not-json" rfl

/-- Two open connections with the same sessionId are the same connection
(given distinct sessionIds). -/
theorem sse_pair_eq_snd {l : List (Nat × String)} (h : (l.map Prod.snd).Nodup)
    {a b : Nat × String} (ha : a ∈ l) (hb : b ∈ l) (he : a.2 = b.2) : a = b :=
  List.inj_on_of_nodup_map h ha hb he

/-- Deleting by a connection's sessionId is deleting that connection, under
the pointwise correspondence of keys. -/
theorem map_swap_filter (l : List (Nat × String)) (c : Nat) (s2 : String)
    (h : ∀ x ∈ l, x.2 = s2 ↔ x.1 = c) :
    ((l.map (fun p => (p.2, p.1))).filter (fun p => p.1 ≠ s2)) =
      ((l.filter (fun p => p.1 ≠ c)).map (fun p => (p.2, p.1))) := by
  induction l with
  | nil => rfl
  | cons x t ih =>
    have hx := h x (by simp)
    have ht : ∀ y ∈ t, y.2 = s2 ↔ y.1 = c := fun y hy => h y (by simp [hy])
    have ih2 := ih ht
    by_cases hc : x.1 = c
    · have h2 : x.2 = s2 := hx.mpr hc
      simpa [List.filter_cons, hc, h2] using ih2
    · have h2 : ¬ x.2 = s2 := fun he => hc (hx.mp he)
      simpa [List.filter_cons, hc, h2] using ih2

/-- Every reachable state satisfies the session-map invariant: the
`sseTransports` map is exactly the open connections keyed by sessionId, with
pairwise-distinct connections and sessionIds. -/
theorem sse_reachable_inv {s : SseState} (h : SseReachable s) : SseInv s := by
  induction h with
  | init => exact ⟨rfl, List.nodup_nil, List.nodup_nil⟩
  | @openStep s conn sid hr hc hs ih =>
    obtain ⟨hmap, hfst, hsnd⟩ := ih
    have hc' : ∀ p ∈ s.openConns, p.1 ≠ conn := by simpa using hc
    have hs' : ∀ p ∈ s.openConns, p.2 ≠ sid := by simpa using hs
    have hnot : ¬ (s.transports.any (fun p => p.1 = sid) = true) := by
      rw [hmap]
      simp only [List.any_eq_true]
      rintro ⟨p, hp, hpe⟩
      obtain ⟨q, hq, rfl⟩ := List.mem_map.mp hp
      exact hs' q hq (by simpa using hpe)
    simp only [sseStep]
    refine ⟨?_, ?_, ?_⟩
    · show jsSetKey s.transports sid conn = _
      rw [jsSetKey, if_neg hnot, hmap, List.map_append]
      rfl
    · show ((s.openConns ++ [(conn, sid)]).map Prod.fst).Nodup
      rw [List.map_append]
      refine List.Nodup.append hfst (List.nodup_singleton _) ?_
      intro a ha hb
      simp only [List.map_cons, List.map_nil, List.mem_singleton] at hb
      subst hb
      obtain ⟨p, hp, hpe⟩ := List.mem_map.mp ha
      exact hc' p hp hpe
    · show ((s.openConns ++ [(conn, sid)]).map Prod.snd).Nodup
      rw [List.map_append]
      refine List.Nodup.append hsnd (List.nodup_singleton _) ?_
      intro a ha hb
      simp only [List.map_cons, List.map_nil, List.mem_singleton] at hb
      subst hb
      obtain ⟨p, hp, hpe⟩ := List.mem_map.mp ha
      exact hs' p hp hpe
  | @closeStep s conn hr ih =>
    obtain ⟨hmap, hfst, hsnd⟩ := ih
    simp only [sseStep]
    cases hf : s.openConns.find? (fun p => p.1 = conn) with
    | none => exact ⟨hmap, hfst, hsnd⟩
    | some p =>
      have hpmem : p ∈ s.openConns := List.mem_of_find?_eq_some hf
      have hpc : p.1 = conn := by simpa using List.find?_some hf
      have hpt : ∀ x ∈ s.openConns, x.2 = p.2 ↔ x.1 = conn := by
        intro x hx
        constructor
        · intro he
          rw [sse_pair_eq_snd hsnd hx hpmem he, hpc]
        · intro he
          have hxp : x = p :=
            List.inj_on_of_nodup_map hfst hx hpmem (by rw [he, hpc])
          rw [hxp]
      refine ⟨?_, ?_, ?_⟩
      · show jsDeleteKey s.transports p.2 = _
        rw [jsDeleteKey, hmap]
        exact map_swap_filter s.openConns conn p.2 hpt
      · exact hfst.sublist ((List.filter_sublist _).map _)
      · exact hsnd.sublist ((List.filter_sublist _).map _)
  | @postStep s sid hr ih => simpa [sseStep] using ih

/-- C4.  At every reachable state the `sseTransports` map holds exactly one
entry per open SSE connection (it is precisely the open-connection list keyed
by sessionId, so in particular the entry count equals the open-connection
count); `GET /sse` inserts the new transport under its sessionId and the
close event removes it (both by the definition of `sseStep`), and
`POST /messages` never mutates the map. -/
theorem c4_session_map (s : SseState) (h : SseReachable s) :
    s.transports = s.openConns.map (fun p => (p.2, p.1)) ∧
    s.transports.length = s.openConns.length ∧
    (∀ sid, sseStep s (.postMessage sid) = s) := by
  refine ⟨(sse_reachable_inv h).1, ?_, fun _ => rfl⟩
  rw [(sse_reachable_inv h).1, List.length_map]

/-- C4, witness: open two connections, close the first; the map holds exactly
the remaining open connection. -/
theorem c4_session_map_witness :
    (sseStep (sseStep (sseStep ⟨[], []⟩ (.openSse 0 "a")) (.openSse 1 "b"))
        (.closeSse 0)).transports =
      (sseStep (sseStep (sseStep ⟨[], []⟩ (.openSse 0 "a")) (.openSse 1 "b"))
        (.closeSse 0)).openConns.map (fun p => (p.2, p.1)) :=
  (c4_session_map _
    (SseReachable.closeStep
      (SseReachable.openStep
        (SseReachable.openStep SseReachable.init (by decide) (by decide))
        (by decide) (by decide)))).1

/-- C7.  At every reachable state, distinct open streaming connections carry
distinct sessionIds (their sessionId list is duplicate-free), and a sessionId
is correlated with at most one open connection: two map entries under the
same sessionId are the same transport. -/
theorem c7_session_ids_unique (s : SseState) (h : SseReachable s) :
    (s.openConns.map Prod.snd).Nodup ∧
    (∀ (sid : String) (c1 c2 : Nat),
      (sid, c1) ∈ s.transports → (sid, c2) ∈ s.transports → c1 = c2) := by
  obtain ⟨hmap, hfst, hsnd⟩ := sse_reachable_inv h
  refine ⟨hsnd, ?_⟩
  intro sid c1 c2 h1 h2
  rw [hmap] at h1 h2
  obtain ⟨p, hp, hpe⟩ := List.mem_map.mp h1
  obtain ⟨q, hq, hqe⟩ := List.mem_map.mp h2
  have hps : p.2 = sid := congrArg Prod.fst hpe
  have hpc : p.1 = c1 := congrArg Prod.snd hpe
  have hqs : q.2 = sid := congrArg Prod.fst hqe
  have hqc : q.1 = c2 := congrArg Prod.snd hqe
  rw [← hpc, ← hqc, sse_pair_eq_snd hsnd hp hq (hps.trans hqs.symm)]

/-- C7, witness: with two open connections the sessionId list is
duplicate-free. -/
theorem c7_session_ids_unique_witness :
    ((sseStep (sseStep ⟨[], []⟩ (.openSse 0 "a")) (.openSse 1 "b")).openConns.map
      Prod.snd).Nodup :=
  (c7_session_ids_unique _
    (SseReachable.openStep
      (SseReachable.openStep SseReachable.init (by decide) (by decide))
      (by decide) (by decide))).1

end SupabaseMcp
